import Mathlib

/-!
Verification of `src/addendum/e_ai_summarize/README.py`.

The script holds a fixed multi-line template string `readme_content` with the
placeholder token `{{CODE}}` (transliterated below with escaped braces),
replaces every occurrence of the placeholder with a literal three-backtick
delimiter via Python's `str.replace` (line 168), writes the result to
`README.md` (lines 171-172), and prints a confirmation line (line 174).

Strings are modelled as `List Char`.  Python's `str.replace` and `str.count`
are embedded as fuel-indexed structural recursions (`replaceFuel`,
`countFuel`); the fuel is the length of the scanned list, which strictly
decreases at every step, so any fuel at least the list's length gives the
scan's value.  `Nat.rec`-based mirrors (`countTR`, `replaceNR`) of the same
recursions are proved equal to them and are used to evaluate the functions on
the concrete 5583-character template, which the kernel reduces where the
equation-compiler form does not.

The file write and the confirmation print (lines 170-174) are embedded as an
explicit state transformer over a small `World` of observable effects: the
file system, the ability to open and to write the destination (Python's
`open(..., "w")` and `file.write` raise `OSError` - the spec's `StorageError` -
exactly when these fail), the number of open storage handles, and the lines
printed to standard output.
-/

set_option maxRecDepth 2000000

/-- The placeholder token `{{CODE}}` (second argument of `str.replace`
at line 168 of README.py), written with escaped braces. -/
def PLACEHOLDER : List Char :=
  ['\x7b', '\x7b', 'C', 'O', 'D', 'E', '\x7d', '\x7d']

/-- The literal delimiter sequence of three backticks (third argument of
`str.replace` at line 168 of README.py). -/
def DELIMITER : List Char := ['\x60', '\x60', '\x60']

/-- Fuel-indexed left-to-right non-overlapping scan of Python's
`str.replace` for a pattern: at each position, if the pattern is a prefix
of the rest, emit the replacement and resume after the matched pattern
(never rescanning the replacement); otherwise copy one character.  A fuel
of at least the list's length runs the scan to the end. -/
def replaceFuel (pat rep : List Char) : Nat → List Char → List Char
  | _, [] => []
  | 0, s => s
  | fuel + 1, c :: cs =>
    if pat.isPrefixOf (c :: cs) ∧ 0 < pat.length then
      rep ++ replaceFuel pat rep fuel (cs.drop (pat.length - 1))
    else
      c :: replaceFuel pat rep fuel cs

/-- Python's `s.replace(pat, rep)`: for the empty pattern Python inserts
`rep` at every gap (before each character and once at the end); for a
nonempty pattern it is the left-to-right non-overlapping scan. -/
def pyReplace (s pat rep : List Char) : List Char :=
  if pat.isEmpty then rep ++ s.flatMap (fun c => c :: rep)
  else replaceFuel pat rep s.length s

/-- Fuel-indexed count of non-overlapping occurrences of a pattern, scanning
left to right, mirroring the scan of `replaceFuel`. -/
def countFuel (pat : List Char) : Nat → List Char → Nat
  | _, [] => 0
  | 0, _ => 0
  | fuel + 1, c :: cs =>
    if pat.isPrefixOf (c :: cs) ∧ 0 < pat.length then
      1 + countFuel pat fuel (cs.drop (pat.length - 1))
    else
      countFuel pat fuel cs

/-- Python's `s.count(pat)`: the number of non-overlapping occurrences of
`pat` in `s`; the empty pattern occurs at every gap, `len(s) + 1` times. -/
def pyCount (pat s : List Char) : Nat :=
  if pat.isEmpty then s.length + 1 else countFuel pat s.length s

/-- `render()`: the substitution step of line 168 of README.py,
`readme_content.replace("{{CODE}}", "<three backticks>")`. -/
def render (s : List Char) : List Char := pyReplace s PLACEHOLDER DELIMITER

/-- `Nat.rec` mirror of `countFuel` carrying an accumulator; it evaluates by
kernel reduction on large inputs.  `countTR_eq` proves it equal to
`countFuel`. -/
def countTR (pat : List Char) : Nat → Nat → List Char → Nat :=
  fun fuel =>
    Nat.rec (motive := fun _ => Nat → List Char → Nat)
      (fun acc _ => acc)
      (fun _ ih acc s =>
        match s with
        | [] => acc
        | c :: cs =>
          if pat.isPrefixOf (c :: cs) ∧ 0 < pat.length then
            ih (acc + 1) (cs.drop (pat.length - 1))
          else
            ih acc cs)
      fuel

/-- `Nat.rec` mirror of `replaceFuel`; it evaluates by kernel reduction on
large inputs.  `replaceNR_eq` proves it equal to `replaceFuel`. -/
def replaceNR (pat rep : List Char) : Nat → List Char → List Char :=
  fun fuel =>
    Nat.rec (motive := fun _ => List Char → List Char)
      (fun s => s)
      (fun _ ih s =>
        match s with
        | [] => []
        | c :: cs =>
          if pat.isPrefixOf (c :: cs) ∧ 0 < pat.length then
            rep ++ ih (cs.drop (pat.length - 1))
          else
            c :: ih cs)
      fuel
def readme_content_raw : List Char :=
  "# e_ai_summarize\n\ne_ai_summarize is a GenAI-powered Rust source code summarizer and crate recreator. It analyzes Rust source files to provide concise, insightful summaries\u2014including key functionality, used crates, safety considerations, and file operations. Additionally, it now supports generating scripts (in Rust or Python) to recreate a crate from a given source folder.\n\n---\n\n## Features\n\n- **So".toList ++
  "urce Code Analysis:**\n  - Summarizes the primary functionality of Rust source code.\n  - Identifies which crates are used within the code.\n  - Assesses code safety with a \x60SAFE_TO_RUN: YES/NO\x60 verdict and explanation.\n  - Detects file operations and provides a \x60FILE_OPERATIONS: YES/NO\x60 verdict with details.\n\n- **Interactive Follow-up Mode:**\n  - Supports interactive questioning for deeper insights ".toList ++
  "into the code analysis.\n  - Offers a single follow-up question option for quick queries.\n\n- **Output Flexibility:**\n  - Choose between streaming and non-streaming output for summarization.\n\n- **Crate Recreation:**\n  - **Generate a Python script:** Creates a script that recreates the crate structure from the provided source folder.\n  - **Generate a Rust script:** Creates a Rust script to recreate t".toList ++
  "he crate.\n  - Option to process only the \x60src\x60 subfolder when recreating the crate.\n\n---\n\n## Installation\n\nAdd e_ai_summarize as a dependency in your \x60Cargo.toml\x60.\n\n---\n\n## Usage\n\n### Command-Line Interface\n\nThe tool now offers two main modes: **Summarization** and **Crate Recreation**.\n\n#### Summarization Mode\n\n- **Summarize a Rust source file:**\n\n  \x7b\x7bCODE\x7d\x7dbash\n  cargo run -- path/to/source_file".toList ++
  ".rs\n  \x7b\x7bCODE\x7d\x7d\n\n- **Interactive Follow-up Mode:**\n\n  Run in interactive mode to ask follow-up questions after the summary is generated:\n\n  \x7b\x7bCODE\x7d\x7dbash\n  cargo run -- path/to/source_file.rs --stdin\n  \x7b\x7bCODE\x7d\x7d\n\n- **Single Follow-up Question:**\n\n  Provide a single follow-up question with the \x60-q\x60 option:\n\n  \x7b\x7bCODE\x7d\x7dbash\n  cargo run -- path/to/source_file.rs -q \"Does this code handle errors properly?".toList ++
  "\"\n  \x7b\x7bCODE\x7d\x7d\n\n- **Enable Streaming Mode:**\n\n  Use the \x60--streaming\x60 flag for streaming output:\n\n  \x7b\x7bCODE\x7d\x7dbash\n  cargo run -- path/to/source_file.rs --streaming\n  \x7b\x7bCODE\x7d\x7d\n\nIf no file is specified, e_ai_summarize will default to analyzing its own source code as a demonstration.\n\n#### Crate Recreation Mode\n\n- **Generate a Rust script to recreate the crate:**\n\n  Use the \x60--recreate-crate-rs\x60 flag. O".toList ++
  "ptionally, provide a source folder (defaults to the current directory) and add \x60--src-only\x60 to process only the \x60src\x60 subfolder.\n\n  \x7b\x7bCODE\x7d\x7dbash\n  cargo run -- path/to/source_folder --recreate-crate-rs [--src-only]\n  \x7b\x7bCODE\x7d\x7d\n\n- **Generate a Python script to recreate the crate:**\n\n  Use the \x60--recreate-crate-py\x60 flag. Similar to the Rust mode, you can specify a source folder and use \x60--src-only\x60 i".toList ++
  "f needed.\n\n  \x7b\x7bCODE\x7d\x7dbash\n  cargo run -- path/to/source_folder --recreate-crate-py [--src-only]\n  \x7b\x7bCODE\x7d\x7d\n\n### Programmatic Usage\n\nYou can also integrate e_ai_summarize into your own Rust projects. For example:\n\n\x7b\x7bCODE\x7d\x7drust\nuse e_ai_summarize::summarizer::\x7bself, ChatSession\x7d;\n\n#[tokio::main]\nasync fn main() -> Result<(), Box<dyn std::error::Error>> \x7b\n    // Summarize a source file\n    let (summa".toList ++
  "ry, mut session) = summarizer::summarize_source_session(Some(\"path/to/source_file.rs\"), true).await?;\n    println!(\"Summary:\n\x7b\x7d\", summary);\n\n    // Optionally, ask a follow-up question\n    let followup = session.ask(\"Can you elaborate on the error handling?\").await?;\n    println!(\"Follow-up Answer:\n\x7b\x7d\", followup);\n\n    Ok(())\n\x7d\n\x7b\x7bCODE\x7d\x7d\n\n---\n\n## How It Works\n\n1. **Parsing Input:**\n   - Reads the p".toList ++
  "rovided Rust source file or, if no file is given, defaults to its own source code.\n   - When in crate recreation mode, processes the provided source folder (or defaults to the current directory), optionally limiting to the \x60src\x60 subfolder.\n\n2. **Prompt Construction:**\n   - Constructs a detailed prompt for analyzing the code\x27s main functionality, used crates, safety, file operations, and any limita".toList ++
  "tions.\n\n3. **GenAI-Powered Chat Session:**\n   - Leverages a GenAI model (e.g., \"gpt-4o-mini\") to generate the summary or script, with support for both streaming and non-streaming outputs.\n\n4. **Interactive Querying:**\n   - After the initial summary, users can enter interactive mode or ask single follow-up questions for further insights.\n\n5. **Crate Recreation:**\n   - Depending on the flags provide".toList ++
  "d, the tool generates either a Python or Rust script that recreates the crate structure.\n\n---\n\n## Dependencies\n\n- **Rust Async Runtime:** Uses [Tokio](https://tokio.rs/) for asynchronous operations.\n- **Command-Line Parsing:** Uses [clap](https://github.com/clap-rs/clap) for handling command-line arguments.\n- **Interactive Input:** Integrates [rustyline](https://github.com/kkawakam/rustyline) for ".toList ++
  "interactive command-line input.\n- **Logging:** Uses [env_logger](https://github.com/env-logger-rs/env_logger) and [log](https://docs.rs/log) for logging.\n- **GenAI Client:** Powered by the GenAI library to perform the actual code analysis.\n\n---\n\n## Contributing\n\nContributions are welcome! Please feel free to open issues or submit pull requests for enhancements and bug fixes.\n\n---\n\n## License\n\nDist".toList ++
  "ributed under the MIT License. See [LICENSE](LICENSE) for more information.\n\n---\n\n## Acknowledgements\n\nThanks to the contributors of the GenAI library and the broader Rust community for their continuous support and innovation in open-source projects.\n\nEnjoy using e_ai_summarize for all your Rust code analysis and crate recreation needs!\n\n*Created by Your David Horner around 3/25*\n".toList

/-- The document produced by the substitution at line 168 of README.py:
the template with every placeholder occurrence replaced by the delimiter
(the Python script rebinds the name `readme_content` to this value). -/
def readme_content : List Char := render readme_content_raw

/-- The spec's single error kind for the write step: Python's `open` and
`file.write` (lines 171-172) raise `OSError` when the destination cannot be
opened for writing or the write fails; the spec names this `StorageError`. -/
inductive StorageError where
  | cannotOpen
  | writeFailed
deriving DecidableEq

/-- The observable state the script acts on: the file system, whether the
destination can be opened for writing and whether a write succeeds (the two
failure points of lines 171-172), the number of open storage handles, and
the lines printed to standard output. -/
structure World where
  files : String → Option (List Char)
  canOpen : Bool
  writeOk : Bool
  openHandles : Nat
  stdout : List String

/-- The fixed relative destination path (line 171 of README.py). -/
def readmePath : String := "README.md"

/-- The confirmation line printed on success (line 174 of README.py). -/
def successMessage : String := "README.md has been written successfully."

/-- Python's `open(path, "w", encoding="utf-8")` (line 171): acquires a
storage handle and truncates the destination, or raises when the
destination cannot be opened for writing. -/
def openW (w : World) (path : String) : Except StorageError World :=
  if w.canOpen then
    Except.ok
      { w with
        openHandles := w.openHandles + 1
        files := fun p => if p = path then some [] else w.files p }
  else Except.error StorageError.cannotOpen

/-- Python's `file.write(content)` (line 172): stores the full document, or
raises when the write fails. -/
def writeW (w : World) (path : String) (content : List Char) :
    Except StorageError World :=
  if w.writeOk then
    Except.ok
      { w with files := fun p => if p = path then some content else w.files p }
  else Except.error StorageError.writeFailed

/-- Releasing the storage handle: the `with` block of lines 171-172 closes
the file on every exit path, normal or exceptional. -/
def closeW (w : World) : World := { w with openHandles := w.openHandles - 1 }

/-- `print(msg)` (line 174): appends one line to standard output. -/
def printLine (w : World) (msg : String) : World :=
  { w with stdout := w.stdout ++ [msg] }

/-- Lines 170-174 of README.py: `with open("README.md", "w") as file:
file.write(readme_content)` followed by the success print.  An error from
open or write propagates to the caller with no retry; the `with` block
releases the handle on the write's failure path; the confirmation is printed
only after a successful write. -/
def runScript (w : World) : Except StorageError Unit × World :=
  match openW w readmePath with
  | Except.error e => (Except.error e, w)
  | Except.ok w1 =>
    match writeW w1 readmePath readme_content with
    | Except.error e => (Except.error e, closeW w1)
    | Except.ok w2 => (Except.ok (), printLine (closeW w2) successMessage)

/-- A world whose destination is writable: empty file system, both failure
switches off, no open handles, empty standard output. -/
def Wok : World :=
  { files := fun _ => none
    canOpen := true
    writeOk := true
    openHandles := 0
    stdout := [] }

/-- A world whose destination cannot be opened for writing. -/
def WnoOpen : World :=
  { files := fun _ => none
    canOpen := false
    writeOk := true
    openHandles := 0
    stdout := [] }

/-- `countFuel` ignores the fuel at the empty list. -/
theorem countFuel_nil (pat : List Char) (f : Nat) : countFuel pat f [] = 0 := by
  cases f <;> rfl

/-- Unfolding `countFuel` at positive fuel and a nonempty list. -/
theorem countFuel_succ_cons (pat : List Char) (f : Nat) (c : Char)
    (cs : List Char) :
    countFuel pat (f + 1) (c :: cs) =
      if pat.isPrefixOf (c :: cs) ∧ 0 < pat.length then
        1 + countFuel pat f (cs.drop (pat.length - 1))
      else
        countFuel pat f cs := rfl

/-- Unfolding `countTR` at zero fuel. -/
theorem countTR_zero (pat : List Char) (acc : Nat) (s : List Char) :
    countTR pat 0 acc s = acc := rfl

/-- Unfolding `countTR` at positive fuel and the empty list. -/
theorem countTR_succ_nil (pat : List Char) (f acc : Nat) :
    countTR pat (f + 1) acc [] = acc := rfl

/-- Unfolding `countTR` at positive fuel and a nonempty list. -/
theorem countTR_succ_cons (pat : List Char) (f acc : Nat) (c : Char)
    (cs : List Char) :
    countTR pat (f + 1) acc (c :: cs) =
      if pat.isPrefixOf (c :: cs) ∧ 0 < pat.length then
        countTR pat f (acc + 1) (cs.drop (pat.length - 1))
      else
        countTR pat f acc cs := rfl

/-- The accumulator form agrees with `countFuel`. -/
theorem countTR_eq (pat : List Char) :
    ∀ (f acc : Nat) (s : List Char),
      countTR pat f acc s = acc + countFuel pat f s := by
  intro f
  induction f with
  | zero =>
    intro acc s
    cases s <;> simp [countTR_zero, countFuel]
  | succ f ih =>
    intro acc s
    cases s with
    | nil => simp [countTR_succ_nil, countFuel_nil]
    | cons c cs =>
      rw [countTR_succ_cons, countFuel_succ_cons]
      by_cases h : pat.isPrefixOf (c :: cs) ∧ 0 < pat.length
      · rw [if_pos h, if_pos h, ih]
        omega
      · rw [if_neg h, if_neg h, ih]

/-- `replaceFuel` ignores the fuel at the empty list. -/
theorem replaceFuel_nil (pat rep : List Char) (f : Nat) :
    replaceFuel pat rep f [] = [] := by
  cases f <;> rfl

/-- Unfolding `replaceFuel` at positive fuel and a nonempty list. -/
theorem replaceFuel_succ_cons (pat rep : List Char) (f : Nat) (c : Char)
    (cs : List Char) :
    replaceFuel pat rep (f + 1) (c :: cs) =
      if pat.isPrefixOf (c :: cs) ∧ 0 < pat.length then
        rep ++ replaceFuel pat rep f (cs.drop (pat.length - 1))
      else
        c :: replaceFuel pat rep f cs := rfl

/-- Unfolding `replaceNR` at zero fuel. -/
theorem replaceNR_zero (pat rep : List Char) (s : List Char) :
    replaceNR pat rep 0 s = s := rfl

/-- Unfolding `replaceNR` at positive fuel and the empty list. -/
theorem replaceNR_succ_nil (pat rep : List Char) (f : Nat) :
    replaceNR pat rep (f + 1) [] = [] := rfl

/-- Unfolding `replaceNR` at positive fuel and a nonempty list. -/
theorem replaceNR_succ_cons (pat rep : List Char) (f : Nat) (c : Char)
    (cs : List Char) :
    replaceNR pat rep (f + 1) (c :: cs) =
      if pat.isPrefixOf (c :: cs) ∧ 0 < pat.length then
        rep ++ replaceNR pat rep f (cs.drop (pat.length - 1))
      else
        c :: replaceNR pat rep f cs := rfl

/-- The `Nat.rec` form agrees with `replaceFuel`. -/
theorem replaceNR_eq (pat rep : List Char) :
    ∀ (f : Nat) (s : List Char),
      replaceNR pat rep f s = replaceFuel pat rep f s := by
  intro f
  induction f with
  | zero =>
    intro s
    cases s <;> rfl
  | succ f ih =>
    intro s
    cases s with
    | nil => rfl
    | cons c cs =>
      rw [replaceNR_succ_cons, replaceFuel_succ_cons]
      by_cases h : pat.isPrefixOf (c :: cs) ∧ 0 < pat.length
      · rw [if_pos h, if_pos h, ih]
      · rw [if_neg h, if_neg h, ih]

/-- Any two fuels at least the list\x27s length give the same count. -/
theorem countFuel_fuel_irrel (pat : List Char) :
    ∀ (f g : Nat) (s : List Char),
      s.length ≤ f → s.length ≤ g → countFuel pat f s = countFuel pat g s := by
  intro f
  induction f with
  | zero =>
    intro g s hf _
    have : s = [] := List.eq_nil_of_length_eq_zero (Nat.le_zero.mp hf)
    subst this
    simp [countFuel_nil]
  | succ f ih =>
    intro g s hf hg
    cases s with
    | nil => simp [countFuel_nil]
    | cons c cs =>
      cases g with
      | zero => simp at hg
      | succ g =>
        rw [countFuel_succ_cons, countFuel_succ_cons]
        simp only [List.length_cons] at hf hg
        by_cases h : pat.isPrefixOf (c :: cs) ∧ 0 < pat.length
        · rw [if_pos h, if_pos h]
          have hd : (cs.drop (pat.length - 1)).length ≤ cs.length := by
            rw [List.length_drop]; omega
          rw [ih g (cs.drop (pat.length - 1)) (by omega) (by omega)]
        · rw [if_neg h, if_neg h]
          exact ih g cs (by omega) (by omega)

/-- Any two fuels at least the list\x27s length give the same replacement. -/
theorem replaceFuel_fuel_irrel (pat rep : List Char) :
    ∀ (f g : Nat) (s : List Char),
      s.length ≤ f → s.length ≤ g →
      replaceFuel pat rep f s = replaceFuel pat rep g s := by
  intro f
  induction f with
  | zero =>
    intro g s hf _
    have : s = [] := List.eq_nil_of_length_eq_zero (Nat.le_zero.mp hf)
    subst this
    simp [replaceFuel_nil]
  | succ f ih =>
    intro g s hf hg
    cases s with
    | nil => simp [replaceFuel_nil]
    | cons c cs =>
      cases g with
      | zero => simp at hg
      | succ g =>
        rw [replaceFuel_succ_cons, replaceFuel_succ_cons]
        simp only [List.length_cons] at hf hg
        by_cases h : pat.isPrefixOf (c :: cs) ∧ 0 < pat.length
        · rw [if_pos h, if_pos h]
          have hd : (cs.drop (pat.length - 1)).length ≤ cs.length := by
            rw [List.length_drop]; omega
          rw [ih g (cs.drop (pat.length - 1)) (by omega) (by omega)]
        · rw [if_neg h, if_neg h]
          rw [ih g cs (by omega) (by omega)]

/-- `countFuel` at zero fuel is zero. -/
theorem countFuel_zero (pat : List Char) (s : List Char) :
    countFuel pat 0 s = 0 := by
  cases s <;> rfl

/-- Length of the scan result: each of the `countFuel` matches trades
`pat.length` characters of the input for `rep.length` characters of
replacement; everything else is copied. -/
theorem replaceFuel_length (pat rep : List Char) :
    ∀ (f : Nat) (s : List Char), s.length ≤ f →
      ((replaceFuel pat rep f s).length : ℤ) =
        (s.length : ℤ) +
          ((rep.length : ℤ) - (pat.length : ℤ)) * (countFuel pat f s : ℤ) := by
  intro f
  induction f with
  | zero =>
    intro s hf
    have : s = [] := List.eq_nil_of_length_eq_zero (Nat.le_zero.mp hf)
    subst this
    simp [replaceFuel_nil, countFuel_nil]
  | succ f ih =>
    intro s hf
    cases s with
    | nil => simp [replaceFuel_nil, countFuel_nil]
    | cons c cs =>
      rw [replaceFuel_succ_cons, countFuel_succ_cons]
      simp only [List.length_cons] at hf
      by_cases h : pat.isPrefixOf (c :: cs) ∧ 0 < pat.length
      · rw [if_pos h, if_pos h]
        obtain ⟨hpre, hpos⟩ := h
        have hple : pat.length ≤ cs.length + 1 := by
          have := (List.isPrefixOf_iff_prefix.mp hpre).length_le
          simpa using this
        have hdl : (cs.drop (pat.length - 1)).length =
            cs.length - (pat.length - 1) := List.length_drop _ _
        have hIH := ih (cs.drop (pat.length - 1)) (by rw [hdl]; omega)
        have hdz : ((cs.drop (pat.length - 1)).length : ℤ) =
            (cs.length : ℤ) - (pat.length : ℤ) + 1 := by
          rw [hdl]; omega
        simp only [List.length_append, List.length_cons]
        push_cast
        rw [hIH, hdz]
        ring
      · rw [if_neg h, if_neg h]
        have hIH := ih cs (by omega)
        simp only [List.length_cons]
        push_cast
        rw [hIH]
        ring

/-- `pyCount` via the accumulator form, at any sufficient fuel. -/
theorem pyCount_eq_countTR (pat s : List Char) (f : Nat) (hne : pat ≠ [])
    (hf : s.length ≤ f) : pyCount pat s = countTR pat f 0 s := by
  unfold pyCount
  rw [if_neg (by simpa [List.isEmpty_iff] using hne), countTR_eq,
    Nat.zero_add]
  exact countFuel_fuel_irrel pat s.length f s le_rfl hf

/-- The rendered document is never longer than the template (the delimiter
is shorter than the placeholder). -/
theorem render_length_le (t : List Char) : (render t).length ≤ t.length := by
  have h := replaceFuel_length PLACEHOLDER DELIMITER t.length t le_rfl
  unfold render pyReplace
  rw [if_neg (by decide)]
  have hP : PLACEHOLDER.length = 8 := by decide
  have hD : DELIMITER.length = 3 := by decide
  rw [hP, hD] at h
  omega

/-- A scan that never sees the pattern as a prefix of any suffix counts
zero occurrences, at every fuel. -/
theorem countFuel_zero_of_no_match (pat : List Char) :
    ∀ (f : Nat) (l : List Char),
      (∀ d, ¬ (pat.isPrefixOf (l.drop d) = true)) →
      countFuel pat f l = 0 := by
  intro f
  induction f with
  | zero => intro l _; exact countFuel_zero pat l
  | succ f ih =>
    intro l hno
    cases l with
    | nil => exact countFuel_nil pat (f + 1)
    | cons c cs =>
      rw [countFuel_succ_cons]
      rw [if_neg (fun h => hno 0 (by simpa using h.1))]
      exact ih cs fun d hd => hno (d + 1) (by simpa using hd)

/-- A nonempty suffix of the placeholder that is a prefix of a scan result
was already a prefix of the scanned input: the inserted backtick delimiters
share no character with the placeholder, so a placeholder fragment cannot
begin inside them, and a fragment running through copied characters pulls
back to the input. -/
theorem placeholder_suffix_prefix_of_replace :
    ∀ (f : Nat) (s q : List Char), s.length ≤ f → q ≠ [] →
      List.IsSuffix q PLACEHOLDER →
      q.isPrefixOf (replaceFuel PLACEHOLDER DELIMITER f s) = true →
      q.isPrefixOf s = true := by
  intro f
  induction f with
  | zero =>
    intro s q hf hq _ hpre
    have : s = [] := List.eq_nil_of_length_eq_zero (Nat.le_zero.mp hf)
    subst this
    rw [replaceFuel_nil] at hpre
    cases q with
    | nil => exact absurd rfl hq
    | cons a as => simp [List.isPrefixOf] at hpre
  | succ f ih =>
    intro s q hf hq hsf hpre
    cases s with
    | nil =>
      rw [replaceFuel_nil] at hpre
      cases q with
      | nil => exact absurd rfl hq
      | cons a as => simp [List.isPrefixOf] at hpre
    | cons c cs =>
      simp only [List.length_cons] at hf
      rw [replaceFuel_succ_cons] at hpre
      by_cases h : PLACEHOLDER.isPrefixOf (c :: cs) ∧ 0 < PLACEHOLDER.length
      · rw [if_pos h] at hpre
        cases q with
        | nil => exact absurd rfl hq
        | cons a as =>
          have ha : a ∈ PLACEHOLDER := hsf.subset (List.mem_cons_self a as)
          have hab : a = '\x60' := by
            simp only [DELIMITER, List.cons_append, List.nil_append,
              List.isPrefixOf] at hpre
            exact eq_of_beq (Bool.and_elim_left hpre)
          rw [hab] at ha
          exact absurd ha (by decide)
      · rw [if_neg h] at hpre
        cases q with
        | nil => exact absurd rfl hq
        | cons a as =>
          simp only [List.isPrefixOf, Bool.and_eq_true, beq_iff_eq] at hpre
          obtain ⟨hac, has⟩ := hpre
          cases as with
          | nil =>
            simp [List.isPrefixOf, hac]
          | cons b bs =>
            have hsf2 : List.IsSuffix (b :: bs) PLACEHOLDER :=
              (List.suffix_cons a (b :: bs)).trans hsf
            have := ih cs (b :: bs) (by omega) (by simp) hsf2 has
            simp [List.isPrefixOf, hac, this]

/-- No suffix of a scan result has the placeholder as a prefix: the scan
replaced every occurrence, and the inserted delimiters cannot create one. -/
theorem replace_no_placeholder_match :
    ∀ (f : Nat) (s : List Char), s.length ≤ f → ∀ d,
      ¬ (PLACEHOLDER.isPrefixOf
          ((replaceFuel PLACEHOLDER DELIMITER f s).drop d) = true) := by
  intro f
  induction f with
  | zero =>
    intro s hf d
    have : s = [] := List.eq_nil_of_length_eq_zero (Nat.le_zero.mp hf)
    subst this
    rw [replaceFuel_nil]
    simp [PLACEHOLDER, List.isPrefixOf]
  | succ f ih =>
    intro s hf d
    cases s with
    | nil =>
      rw [replaceFuel_nil]
      simp [PLACEHOLDER, List.isPrefixOf]
    | cons c cs =>
      simp only [List.length_cons] at hf
      rw [replaceFuel_succ_cons]
      by_cases h : PLACEHOLDER.isPrefixOf (c :: cs) ∧ 0 < PLACEHOLDER.length
      · rw [if_pos h]
        have hrest : (cs.drop (PLACEHOLDER.length - 1)).length ≤ f := by
          have := List.length_drop (PLACEHOLDER.length - 1) cs
          omega
        match d with
        | 0 => simp [PLACEHOLDER, DELIMITER, List.isPrefixOf]
        | 1 => simp [PLACEHOLDER, DELIMITER, List.isPrefixOf]
        | 2 => simp [PLACEHOLDER, DELIMITER, List.isPrefixOf]
        | (d + 3) =>
          simp only [DELIMITER, List.cons_append, List.nil_append,
            List.drop_succ_cons]
          exact ih (cs.drop (PLACEHOLDER.length - 1)) hrest d
      · rw [if_neg h]
        match d with
        | 0 =>
          intro hP
          simp only [List.drop_zero, PLACEHOLDER, List.isPrefixOf,
            Bool.and_eq_true, beq_iff_eq] at hP
          obtain ⟨hc, hrest⟩ := hP
          subst hc
          have h2 := placeholder_suffix_prefix_of_replace f cs
            ['\x7b', 'C', 'O', 'D', 'E', '\x7d', '\x7d'] (by omega)
            (by simp) (by decide) hrest
          apply h
          constructor
          · simp [PLACEHOLDER, List.isPrefixOf, h2]
          · decide
        | (d + 1) =>
          simp only [List.drop_succ_cons]
          exact ih cs (by omega) d

/-- Rendering leaves no occurrence of the placeholder in the output (the
replacement is never rescanned, and the delimiter cannot recreate the
token). -/
theorem render_no_placeholder (t : List Char) :
    pyCount PLACEHOLDER (render t) = 0 := by
  unfold pyCount render pyReplace
  rw [if_neg (by decide), if_neg (by decide)]
  exact countFuel_zero_of_no_match PLACEHOLDER _ _
    (replace_no_placeholder_match t.length t le_rfl)

/-- A scan that counts zero occurrences copies the input unchanged. -/
theorem replaceFuel_eq_self_of_count_zero (pat rep : List Char) :
    ∀ (f : Nat) (s : List Char),
      countFuel pat f s = 0 → replaceFuel pat rep f s = s := by
  intro f
  induction f with
  | zero => intro s _; cases s <;> rfl
  | succ f ih =>
    intro s hc
    cases s with
    | nil => exact replaceFuel_nil pat rep (f + 1)
    | cons c cs =>
      rw [countFuel_succ_cons] at hc
      rw [replaceFuel_succ_cons]
      by_cases h : pat.isPrefixOf (c :: cs) ∧ 0 < pat.length
      · rw [if_pos h] at hc
        omega
      · rw [if_neg h] at hc
        rw [if_neg h, ih cs hc]

/-- Scanning a list that starts with the pattern emits the replacement and
resumes right after the pattern. -/
theorem replaceFuel_head_match (pat rep : List Char) (f : Nat)
    (b : List Char) (hne : pat ≠ []) :
    replaceFuel pat rep (f + 1) (pat ++ b) = rep ++ replaceFuel pat rep f b := by
  cases pat with
  | nil => exact absurd rfl hne
  | cons p ps =>
    rw [List.cons_append, replaceFuel_succ_cons]
    rw [if_pos ⟨List.isPrefixOf_iff_prefix.mpr
      (by rw [← List.cons_append]; exact List.prefix_append _ b), by simp⟩]
    congr 1
    have : (p :: ps).length - 1 = ps.length := by simp
    rw [this, List.drop_left]

/-- The substitution scan, on a template that carries a placeholder
occurrence at position `a.length` and no earlier match: it copies `a`,
emits the delimiter for that occurrence without rescanning it, and
continues left to right on the remainder. -/
theorem replaceFuel_append_placeholder :
    ∀ (a : List Char) (f : Nat) (b : List Char),
      a.length + PLACEHOLDER.length + b.length ≤ f →
      (∀ i, i < a.length →
        ¬ (PLACEHOLDER.isPrefixOf ((a ++ PLACEHOLDER ++ b).drop i) = true)) →
      replaceFuel PLACEHOLDER DELIMITER f (a ++ PLACEHOLDER ++ b) =
        a ++ DELIMITER ++ render b := by
  intro a
  induction a with
  | nil =>
    intro f b hf _
    simp only [List.nil_append]
    simp only [List.length_nil, Nat.zero_add] at hf
    cases f with
    | zero => simp [PLACEHOLDER] at hf
    | succ f =>
      rw [replaceFuel_head_match PLACEHOLDER DELIMITER f b (by decide)]
      have hb : b.length ≤ f := by
        have : 0 < PLACEHOLDER.length := by decide
        omega
      rw [replaceFuel_fuel_irrel PLACEHOLDER DELIMITER f b.length b hb le_rfl]
      unfold render pyReplace
      rw [if_neg (by decide)]
  | cons c a ih =>
    intro f b hf hno
    simp only [List.cons_append] at hno ⊢
    simp only [List.length_cons] at hf
    cases f with
    | zero => omega
    | succ f =>
      rw [replaceFuel_succ_cons]
      rw [if_neg (fun hg => hno 0 (by simp) (by simpa using hg.1))]
      rw [ih f b (by omega)
        (fun i hi => by
          have := hno (i + 1) (by simpa using Nat.succ_lt_succ hi)
          simpa using this)]

/-- The template constant of lines 1-165 has 5583 characters. -/
theorem readme_raw_length : readme_content_raw.length = 5583 := by
  simp only [readme_content_raw, List.length_append]
  decide

/-- The template contains exactly 14 occurrences of the placeholder. -/
theorem count_placeholder_raw : pyCount PLACEHOLDER readme_content_raw = 14 := by
  rw [pyCount_eq_countTR PLACEHOLDER readme_content_raw 5583 (by decide)
    (by rw [readme_raw_length])]
  decide

/-- The template contains no literal delimiter occurrence. -/
theorem count_delimiter_raw : pyCount DELIMITER readme_content_raw = 0 := by
  rw [pyCount_eq_countTR DELIMITER readme_content_raw 5583 (by decide)
    (by rw [readme_raw_length])]
  decide

/-- The rendered document as the kernel-evaluable scan at explicit fuel. -/
theorem readme_content_as_NR :
    readme_content = replaceNR PLACEHOLDER DELIMITER 5583 readme_content_raw := by
  unfold readme_content render pyReplace
  rw [if_neg (by decide), readme_raw_length, ← replaceNR_eq]

/-- The rendered document contains exactly 14 delimiter occurrences. -/
theorem count_delimiter_rendered : pyCount DELIMITER readme_content = 14 := by
  have hlen : readme_content.length ≤ 5583 := by
    have h := render_length_le readme_content_raw
    have := readme_raw_length
    unfold readme_content
    omega
  rw [pyCount_eq_countTR DELIMITER readme_content 5583 (by decide) hlen,
    readme_content_as_NR]
  decide

/-- C1: render() replaces every occurrence of the placeholder token with the
literal three-backtick delimiter, scanning left to right, non-overlapping
and non-recursively: wherever the template carries a placeholder occurrence
with no match starting earlier, the output is the copied prefix, the
delimiter (never itself re-scanned), and the rendering of the remainder;
and concretely the template `a{{CODE}}b` renders to `a` + three backticks +
`b`. -/
theorem c1_render_replaces_each_placeholder :
    (∀ a b : List Char,
      (∀ i, i < a.length →
        ¬ (PLACEHOLDER.isPrefixOf ((a ++ PLACEHOLDER ++ b).drop i) = true)) →
      render (a ++ PLACEHOLDER ++ b) = a ++ DELIMITER ++ render b) ∧
    render "a\x7b\x7bCODE\x7d\x7db".toList = "a\x60\x60\x60b".toList := by
  constructor
  · intro a b hno
    unfold render pyReplace
    rw [if_neg (by decide)]
    exact replaceFuel_append_placeholder a _ b
      (by simp [List.length_append]; omega) hno
  · decide

/-- Witness for C1 at a concrete split. -/
theorem c1_witness :
    render ("x".toList ++ PLACEHOLDER ++ "y".toList) =
      "x".toList ++ DELIMITER ++ render "y".toList :=
  c1_render_replaces_each_placeholder.1 "x".toList "y".toList (by decide)

/-- C2: for every template, the rendered document\x27s length equals the
template\x27s length plus `(len(delimiter) - len(placeholder))` times the
number of non-overlapping placeholder occurrences. -/
theorem c2_rendered_length (t : List Char) :
    ((render t).length : ℤ) =
      (t.length : ℤ) +
        ((DELIMITER.length : ℤ) - (PLACEHOLDER.length : ℤ)) *
          (pyCount PLACEHOLDER t : ℤ) := by
  unfold render pyReplace pyCount
  rw [if_neg (by decide), if_neg (by decide)]
  exact replaceFuel_length PLACEHOLDER DELIMITER t.length t le_rfl

/-- C3, counterexample: for the template made of two backticks, a
placeholder occurrence and one more backtick, the rendered output holds two
non-overlapping delimiter occurrences, but the template holds one
placeholder occurrence and no literal delimiter occurrence. -/
theorem c3_roundtrip_counterexample :
    ¬ (pyCount DELIMITER (render "\x60\x60\x7b\x7bCODE\x7d\x7d\x60".toList) =
        pyCount PLACEHOLDER "\x60\x60\x7b\x7bCODE\x7d\x7d\x60".toList +
          pyCount DELIMITER "\x60\x60\x7b\x7bCODE\x7d\x7d\x60".toList) := by
  decide

/-- C3, amended: for the concrete template in the source, the rendered
output contains exactly as many non-overlapping delimiter occurrences as
the template has placeholder occurrences plus delimiter occurrences already
literally present in the template (zero here). -/
theorem c3_roundtrip_amended :
    pyCount DELIMITER readme_content =
      pyCount PLACEHOLDER readme_content_raw +
        pyCount DELIMITER readme_content_raw := by
  rw [count_delimiter_rendered, count_placeholder_raw, count_delimiter_raw]

/-- C4: a template with zero placeholder occurrences renders to itself,
byte-identically. -/
theorem c4_identity_without_placeholder (t : List Char)
    (h : pyCount PLACEHOLDER t = 0) : render t = t := by
  unfold pyCount at h
  rw [if_neg (by decide)] at h
  unfold render pyReplace
  rw [if_neg (by decide)]
  exact replaceFuel_eq_self_of_count_zero PLACEHOLDER DELIMITER t.length t h

/-- Witness for C4 at a placeholder-free template. -/
theorem c4_witness : render "hello".toList = "hello".toList :=
  c4_identity_without_placeholder "hello".toList (by decide)

/-- C5: rendering replaces all placeholder occurrences and zero others - no
placeholder survives in any output - and render() is deterministic: equal
inputs give byte-identical output on every invocation. -/
theorem c5_deterministic_total_replacement :
    (∀ t : List Char, pyCount PLACEHOLDER (render t) = 0) ∧
      ∀ t₁ t₂ : List Char, t₁ = t₂ → render t₁ = render t₂ :=
  ⟨render_no_placeholder, fun _ _ h => congrArg render h⟩

/-- Witness for C5 at concrete templates. -/
theorem c5_witness :
    pyCount PLACEHOLDER (render "a\x7b\x7bCODE\x7d\x7db".toList) = 0 ∧
      render "q".toList = render "q".toList :=
  ⟨c5_deterministic_total_replacement.1 _,
    c5_deterministic_total_replacement.2 "q".toList "q".toList rfl⟩

/-- C6: the write step signals a StorageError exactly when the destination
cannot be opened for writing or the write itself fails; the error
propagates (it is the result), and on failure nothing is printed to
standard output. -/
theorem c6_storage_error_exactly_on_failure (w : World) :
    ((runScript w).1 = Except.ok () ↔ (w.canOpen = true ∧ w.writeOk = true)) ∧
    ((runScript w).1 = Except.error StorageError.cannotOpen ↔
      w.canOpen = false) ∧
    ((runScript w).1 = Except.error StorageError.writeFailed ↔
      (w.canOpen = true ∧ w.writeOk = false)) ∧
    (∀ e, (runScript w).1 = Except.error e →
      (runScript w).2.stdout = w.stdout) := by
  rcases w with ⟨files, co, wo, oh, so⟩
  cases co <;> cases wo <;>
    simp [runScript, openW, writeW, closeW, printLine]

/-- Witness for C6: an unwritable destination leaves standard output
untouched. -/
theorem c6_witness : (runScript WnoOpen).2.stdout = WnoOpen.stdout :=
  (c6_storage_error_exactly_on_failure WnoOpen).2.2.2
    StorageError.cannotOpen rfl

/-- C7: on success the destination file holds exactly the rendered
document, and exactly one confirmation line is appended to standard
output. -/
theorem c7_success_writes_and_confirms (w : World)
    (h1 : w.canOpen = true) (h2 : w.writeOk = true) :
    (runScript w).1 = Except.ok () ∧
    (runScript w).2.files readmePath = some readme_content ∧
    (runScript w).2.stdout = w.stdout ++ [successMessage] := by
  rcases w with ⟨files, co, wo, oh, so⟩
  subst h1; subst h2
  simp [runScript, openW, writeW, closeW, printLine]

/-- Witness for C7 at a writable world. -/
theorem c7_witness :
    (runScript Wok).1 = Except.ok () ∧
    (runScript Wok).2.files readmePath = some readme_content ∧
    (runScript Wok).2.stdout = Wok.stdout ++ [successMessage] :=
  c7_success_writes_and_confirms Wok rfl rfl

/-- C8: whatever the destination held before, one or two successful runs
leave it containing exactly the rendered document: prior content is fully
replaced, with no append, merge or growth. -/
theorem c8_idempotent_overwrite (w : World) (prior : Option (List Char))
    (hp : w.files readmePath = prior) (h1 : w.canOpen = true)
    (h2 : w.writeOk = true) :
    (runScript w).2.files readmePath = some readme_content ∧
    (runScript (runScript w).2).2.files readmePath = some readme_content := by
  rcases w with ⟨files, co, wo, oh, so⟩
  subst h1; subst h2
  simp [runScript, openW, writeW, closeW, printLine]

/-- Witness for C8 at a writable world with empty prior content. -/
theorem c8_witness :
    (runScript Wok).2.files readmePath = some readme_content ∧
    (runScript (runScript Wok).2).2.files readmePath =
      some readme_content :=
  c8_idempotent_overwrite Wok none rfl rfl rfl

/-- C9: the storage handle count is restored on every exit path of the
script - open failure, write failure, and normal completion alike - before
control returns. -/
theorem c9_handle_released_on_every_path (w : World) :
    (runScript w).2.openHandles = w.openHandles := by
  rcases w with ⟨files, co, wo, oh, so⟩
  cases co <;> cases wo <;>
    simp [runScript, openW, writeW, closeW, printLine]

/-- C10: the concrete template holds exactly 14 placeholder occurrences;
the rendered document holds exactly 14 delimiter occurrences and zero
remaining placeholder occurrences. -/
theorem c10_concrete_counts :
    pyCount PLACEHOLDER readme_content_raw = 14 ∧
    pyCount DELIMITER readme_content = 14 ∧
    pyCount PLACEHOLDER readme_content = 0 :=
  ⟨count_placeholder_raw, count_delimiter_rendered,
    render_no_placeholder readme_content_raw⟩

